import Mathlib

/-!
# Verification of the repair Pager (src/repair/parse/Pager.cpp)

A shallow embedding of `WCDB::Repair::Pager`. The Pager's collaborators
(`FileHandle`, `Wal`, `FileManager`, the shared threaded error) are not part
of the given sources; they are modelled as an explicit environment of oracles,
following the interface the spec describes. All byte buffers (`MappedData`)
are `List Nat`; `MappedData::null()` is `[]`, `size()` is `List.length`.
Machine integers are `Int`/`Nat`; the `(int)` narrowing casts — on the
page count in `doInitialize` and on the short-read corruption tag in the
size validation — are modelled explicitly with wrap-around (`toInt32`,
`intCast32`).
-/

namespace WCDBRepair

/-- Error codes used by Pager.cpp (`Error::Code`): the ones the file
constructs (`Corrupt`, `Empty`, `NotADatabase`, `Notice`) plus `IOError`
standing for an OS-level failure delivered through the shared threaded
error channel. -/
inductive ErrorCode where
  | Corrupt
  | Empty
  | NotADatabase
  | Notice
  | IOError
  deriving Repr, DecidableEq

/-- A structured error as the Pager records it: a code plus, for corruption
events, the page number stored in `error.infos` under key `"Page"`
(messages are elided: no claim depends on message text). -/
structure PagerError where
  code : ErrorCode
  page : Option Int
  deriving Repr, DecidableEq

/-- Modelled from the spec: `Error::isCorruption()` (Error.cpp is not among
the given sources). The spec's §4.2 step 8 reads the test as "the WAL's
recorded error is not itself a `Corrupt` kind", so corruption means code
`Corrupt`. -/
def PagerError.isCorruption (e : PagerError) : Bool :=
  e.code = ErrorCode.Corrupt

/-- Modelled from the spec: the WAL Overlay (Wal.cpp is not among the given
sources). Only the capability surface Pager.cpp consumes: `containsPage`,
`acquirePageData` (here the field `pageData`), `getMaxPageno`,
`getNumberOfFrames`, `getDisposedPages`, `dispose`. -/
structure Wal where
  containsPage : Int → Bool
  pageData : Int → Int → Nat → List Nat
  maxPageno : Int
  nframes : Int
  disposedPages : Int

/-- The overlay before `Wal::initialize` has populated it: holds no pages. -/
def Wal.empty : Wal :=
  { containsPage := fun _ => false
    pageData := fun _ _ _ => []
    maxPageno := 0
    nframes := 0
    disposedPages := 0 }

/-- Modelled from the spec: `Wal::dispose()` discards the overlay,
"downgrading all subsequent reads to base-file-only"; afterwards
`getNumberOfWalFrames() == 0` (§8). -/
def Wal.dispose (w : Wal) : Wal :=
  { containsPage := fun _ => false
    pageData := fun _ _ _ => []
    maxPageno := 0
    nframes := 0
    disposedPages := w.disposedPages + w.maxPageno }

/-- The lazy-initialization states of the `Initializeable` base
(spec §3 / §4.2). -/
inductive PagerState where
  | Uninitialized
  | Initializing
  | Initialized
  | Failed
  deriving Repr, DecidableEq

/-- The environment of external collaborators consumed by one Pager run:
- `stat`: `FileManager::getFileSize` — `some size` on success, `none` on
  a failed stat (which reports size 0);
- `openOk`: result of `FileHandle::open(ReadOnly)`;
- `map off size` / `mapPage no off size`: the byte ranges the file handle's
  mmap returns (short or empty ranges model truncation and I/O failure);
- `threadError`: the shared threaded error captured by
  `assignWithSharedThreadedError`;
- `walResult`: `Wal::initialize` — `ok overlay` on success; on failure,
  `error (walError, partialOverlay)` where `walError` is the error the WAL
  failure records on the Pager and `partialOverlay` the overlay's state. -/
structure Env where
  stat : Option Nat
  openOk : Bool
  map : Int → Nat → List Nat
  mapPage : Int → Int → Nat → List Nat
  threadError : PagerError
  walResult : Except (PagerError × Wal) Wal

/-- The Pager's state: geometry, page count, file size, WAL-importance flag,
WAL overlay, last recorded error, lifecycle state, and whether
`FileHandle::open` has succeeded. -/
structure Pager where
  pageSize : Int
  reservedBytes : Int
  numberOfPages : Int
  fileSize : Nat
  walImportance : Bool
  wal : Wal
  lastError : Option PagerError
  state : PagerState
  opened : Bool

/-- `Pager::Pager(path)`: pageSize and reservedBytes start at the −1
sentinel, page count 0, file size 0, walImportance true, empty overlay. -/
def Pager.new : Pager :=
  { pageSize := -1
    reservedBytes := -1
    numberOfPages := 0
    fileSize := 0
    walImportance := true
    wal := Wal.empty
    lastError := none
    state := PagerState.Uninitialized
    opened := false }

/-- `Initializeable::isInitialized()` (modelled from the spec's state
machine): the state is `Initialized`. -/
def Pager.isInitialized (p : Pager) : Bool :=
  p.state = PagerState.Initialized

/-- `Pager::setPageSize`: `WCTInnerAssert(!isInitialized())` then assign.
The assertion is modelled as `none` (a contract violation, distinct from
every runtime error kind). -/
def Pager.setPageSize (p : Pager) (pageSize : Int) : Option Pager :=
  if p.isInitialized then none
  else some { p with pageSize := pageSize }

/-- `Pager::setReservedBytes`: same contract as `setPageSize`. -/
def Pager.setReservedBytes (p : Pager) (reservedBytes : Int) : Option Pager :=
  if p.isInitialized then none
  else some { p with reservedBytes := reservedBytes }

/-- `Pager::setWalImportance` (the `setShmLegality` forwarding touches only
the overlay's shared-memory policy, which no claim observes). -/
def Pager.setWalImportance (p : Pager) (flag : Bool) : Pager :=
  { p with walImportance := flag }

/-- `Pager::getNumberOfPages()`: `max(m_wal.getMaxPageno(), m_numberOfPages)`. -/
def Pager.getNumberOfPages (p : Pager) : Int :=
  max p.wal.maxPageno p.numberOfPages

/-- `Pager::getNumberOfWalFrames()`: pass-through to the overlay. -/
def Pager.getNumberOfWalFrames (p : Pager) : Int :=
  p.wal.nframes

/-- `Pager::disposeWal()`: forwards to `Wal::dispose`. -/
def Pager.disposeWal (p : Pager) : Pager :=
  { p with wal := p.wal.dispose }

/-- `Pager::markAsCorrupted(page, message)`: records (and publishes) a
`Corrupt` error tagged with `page`. -/
def Pager.markAsCorrupted (p : Pager) (page : Int) : Pager :=
  { p with lastError := some { code := ErrorCode.Corrupt, page := some page } }

/-- `Pager::markAsError(code)`: records (and publishes) an error of `code`
with no page tag. -/
def Pager.markAsError (p : Pager) (code : ErrorCode) : Pager :=
  { p with lastError := some { code := code, page := none } }

/-- `assignWithSharedThreadedError()`: stores the shared threaded error as
this Pager's last error. -/
def Pager.assignThreadedError (p : Pager) (env : Env) : Pager :=
  { p with lastError := some env.threadError }

/-- The `(int)` narrowing applied to a wider signed value (two's-complement
wrap-around), as in `(int) (offset / m_pageSize + 1)`. -/
def intCast32 (z : Int) : Int :=
  (z + 2 ^ 31) % 2 ^ 32 - 2 ^ 31

/-- The validation tail shared verbatim by `acquirePageData` (lines 111-122)
and `acquireData` (lines 130-140): full-length data is returned as is; a
short read (`0 < length < size`) records `Corrupt` tagged with
`(int) (offset / m_pageSize + 1)`; an empty read assigns the shared
threaded error; both return `MappedData::null()`. -/
def Pager.checkSizedData (p : Pager) (env : Env) (data : List Nat)
    (offset : Int) (size : Nat) : Pager × List Nat :=
  if data.length ≠ size then
    if data.length > 0 then
      (p.markAsCorrupted (intCast32 (offset.tdiv p.pageSize + 1)), [])
    else
      (p.assignThreadedError env, [])
  else (p, data)

/-- `Pager::acquirePageData(number, offset, size)` (lines 94-124): WAL
shadowing first; then the out-of-range check against `m_numberOfPages`
(returning null before any mapping); else map from the base file; finally
the size validation. -/
def Pager.acquirePageData (p : Pager) (env : Env) (number offset : Int)
    (size : Nat) : Pager × List Nat :=
  if p.wal.containsPage number then
    p.checkSizedData env (p.wal.pageData number offset size) offset size
  else if number > p.numberOfPages then
    (p.markAsCorrupted number, [])
  else
    p.checkSizedData env (env.mapPage number offset size) offset size

/-- `Pager::acquirePageData(number)` = `acquirePageData(number, 0, m_pageSize)`. -/
def Pager.acquirePageData1 (p : Pager) (env : Env) (number : Int) :
    Pager × List Nat :=
  p.acquirePageData env number 0 p.pageSize.toNat

/-- `Pager::acquireData(offset, size)` (lines 126-142): map a raw range and
validate its length. -/
def Pager.acquireData (p : Pager) (env : Env) (offset : Int) (size : Nat) :
    Pager × List Nat :=
  p.checkSizedData env (env.map offset size) offset size

/-- The 16-byte magic signature `"SQLite format 3\000"`. -/
def sqliteMagic : List Nat :=
  [83, 81, 76, 105, 116, 101, 32, 102, 111, 114, 109, 97, 116, 32, 51, 0]

/-- Modelled from the spec: `Deserialization::advance2BytesInt` at offset 16
— a big-endian 16-bit unsigned page size (§6). -/
def headerPageSize (data : List Nat) : Int :=
  ((data.getD 16 0 % 256) * 256 + data.getD 17 0 % 256 : Nat)

/-- Modelled from the spec: `Deserialization::advance1ByteInt` at offset 20
— the 8-bit reserved-bytes value (§6). -/
def headerReservedBytes (data : List Nat) : Int :=
  (data.getD 20 0 % 256 : Nat)

/-- The `(int)` narrowing cast applied to the page-count computation. -/
def toInt32 (n : Nat) : Int :=
  if n % 2 ^ 32 < 2 ^ 31 then ((n % 2 ^ 32 : Nat) : Int)
  else ((n % 2 ^ 32 : Nat) : Int) - 2 ^ 32

/-- `Pager::doInitialize()` (lines 198-263), translated arm by arm:
stat; empty/stat-failure handling; open; header sniffing when a geometry
value is still the −1 sentinel (magic check, page-size and reserved-bytes
parsing); geometry validation (`Corrupt` tagged page 1); page count
`(int)((m_fileSize + m_pageSize - 1) / m_pageSize)` with the size_t sum
taken mod 2^64; WAL initialization and the importance/disposal policy.
Returns the resulting state and the `bool` the C++ function returns. -/
def Pager.doInitialize (p0 : Pager) (env : Env) : Pager × Bool :=
  let succeed := env.stat.isSome
  let fileSize := env.stat.getD 0
  let p := { p0 with fileSize := fileSize }
  if fileSize = 0 then
    if succeed then (p.markAsError ErrorCode.Empty, false)
    else (p.assignThreadedError env, false)
  else if env.openOk = false then
    (p.assignThreadedError env, false)
  else
    let p := { p with opened := true }
    let headerStep : (Pager × Bool) ⊕ Pager :=
      if p.pageSize = -1 ∨ p.reservedBytes = -1 then
        let r := p.acquireData env 0 100
        let p := r.1
        let data := r.2
        if data.isEmpty then Sum.inl (p.assignThreadedError env, false)
        else if data.take 16 ≠ sqliteMagic then
          Sum.inl (p.markAsError ErrorCode.NotADatabase, false)
        else
          let p := if p.pageSize = -1 then
            { p with pageSize := headerPageSize data } else p
          let p := if p.reservedBytes = -1 then
            { p with reservedBytes := headerReservedBytes data } else p
          Sum.inr p
      else Sum.inr p
    match headerStep with
    | Sum.inl r => r
    | Sum.inr p =>
      if Int.land (p.pageSize - 1) p.pageSize ≠ 0 ∨ p.pageSize < 512 ∨
          p.pageSize > 65536 then
        (p.markAsCorrupted 1, false)
      else if p.reservedBytes < 0 ∨ p.reservedBytes > 255 then
        (p.markAsCorrupted 1, false)
      else
        let np := toInt32 ((fileSize + p.pageSize.toNat - 1) % 2 ^ 64 / p.pageSize.toNat)
        let p := { p with numberOfPages := np }
        match env.walResult with
        | Except.ok w => ({ p with wal := w }, true)
        | Except.error (e, wpart) =>
          let p := { p with lastError := some e, wal := wpart }
          if p.walImportance = true ∨ e.isCorruption = false then
            (p, false)
          else
            (p.disposeWal, true)

/-- `Initializeable::initialize()` (modelled from the spec's state machine
§4.2): from `Uninitialized`, run `doInitialize` in state `Initializing`,
then move to `Initialized` or `Failed`. -/
def Pager.runInit (p : Pager) (env : Env) : Pager :=
  if p.state = PagerState.Uninitialized then
    let r := Pager.doInitialize { p with state := PagerState.Initializing } env
    { r.1 with state := if r.2 then PagerState.Initialized else PagerState.Failed }
  else p

/-- A generic OS-level failure delivered through the shared threaded error
channel. -/
def ioError : PagerError :=
  { code := ErrorCode.IOError, page := none }

/-- A well-formed 100-byte header: the magic signature, page size 512
(big-endian bytes 2, 0), and reserved-bytes value 7 at offset 20. -/
def sampleHeader : List Nat :=
  sqliteMagic ++ [2, 0, 0, 0, 7] ++ List.replicate 79 0

/-- A populated overlay holding page 3, with max page number 5 and 4 frames. -/
def sampleWal : Wal :=
  { containsPage := fun n => n = 3
    pageData := fun _ _ s => List.replicate s 2
    maxPageno := 5
    nframes := 4
    disposedPages := 0 }

/-- A healthy environment: a 1024-byte base file with `sampleHeader`, full
page mappings, and a WAL that initializes to `sampleWal`. -/
def sampleEnv : Env :=
  { stat := some 1024
    openOk := true
    map := fun off size => if off = 0 ∧ size = 100 then sampleHeader else []
    mapPage := fun _ _ size => List.replicate size 1
    threadError := ioError
    walResult := Except.ok sampleWal }

/-- An environment whose stat reports a zero-length file. -/
def envStatZero : Env :=
  { sampleEnv with stat := some 0 }

/-- An initialized Pager over a 2-page, 512-byte-page base file with no
WAL content. -/
def pagerTwoPages : Pager :=
  { Pager.new with
    pageSize := 512
    numberOfPages := 2
    state := PagerState.Initialized }

/-- `pagerTwoPages` with `sampleWal` as its overlay. -/
def pagerWithWal : Pager :=
  { pagerTwoPages with wal := sampleWal }

/-- An environment whose open call fails: initialization ends in `Failed`. -/
def envOpenFail : Env :=
  { sampleEnv with openOk := false }

/-- A pre-initialization Pager with both geometry values overridden
(page size 512, reserved bytes 0), `walImportance` left at its default
`true`. -/
def pagerOverride : Pager :=
  { Pager.new with pageSize := 512, reservedBytes := 0 }

/-- An environment whose WAL initialization fails with a `Corrupt` error
(tagged page 2), leaving `sampleWal` as the partially populated overlay. -/
def walCorruptEnv : Env :=
  { sampleEnv with
    walResult := Except.error ({ code := ErrorCode.Corrupt, page := some 2 }, sampleWal) }

/-- An environment identical to `sampleEnv` except that every raw mapping
returns zero bytes only — in particular the first 16 bytes of the file are
not the SQLite magic. -/
def wrongMagicEnv : Env :=
  { sampleEnv with map := fun _ size => List.replicate size 0 }

/-- The geometry and page-count facts that hold in any state produced by a
successful `doInitialize`: positive recorded file size, validated page
size, and the page count computed from them by the code's formula. -/
def InitInvariant (p : Pager) : Prop :=
  0 < p.fileSize ∧ 512 ≤ p.pageSize ∧ p.pageSize ≤ 65536 ∧
  p.numberOfPages =
    toInt32 ((p.fileSize + p.pageSize.toNat - 1) % 2 ^ 64 / p.pageSize.toNat)

/-- Pre-initialization configurations: a fresh Pager followed by any
sequence of successful geometry-setter and `setWalImportance` calls. -/
inductive ReachableConfig : Pager → Prop where
  | base : ReachableConfig Pager.new
  | pageSizeSet {p q : Pager} (n : Int) :
      ReachableConfig p → p.setPageSize n = some q → ReachableConfig q
  | reservedSet {p q : Pager} (n : Int) :
      ReachableConfig p → p.setReservedBytes n = some q → ReachableConfig q
  | walImportanceSet {p : Pager} (b : Bool) :
      ReachableConfig p → ReachableConfig (p.setWalImportance b)

/-- Initialized states reachable through the public interface: a
successful one-shot `Initializeable` run on a configuration, followed by
any sequence of page reads, raw reads, WAL disposal and `setWalImportance`
calls. -/
inductive ReachableInit : Pager → Prop where
  | run {p : Pager} (env : Env) : ReachableConfig p →
      (Pager.runInit p env).state = PagerState.Initialized →
      ReachableInit (Pager.runInit p env)
  | pageRead {p : Pager} (env : Env) (number offset : Int) (size : Nat) :
      ReachableInit p →
      ReachableInit (p.acquirePageData env number offset size).1
  | rawRead {p : Pager} (env : Env) (offset : Int) (size : Nat) :
      ReachableInit p → ReachableInit (p.acquireData env offset size).1
  | walDisposed {p : Pager} : ReachableInit p → ReachableInit p.disposeWal
  | walImportanceSet {p : Pager} (b : Bool) :
      ReachableInit p → ReachableInit (p.setWalImportance b)

lemma isEmpty_false_of_length {l : List Nat} (h : l.length ≠ 0) :
    l.isEmpty = false := by
  cases l with
  | nil => simp at h
  | cons a t => rfl

/-- C7: a base file whose size stats as zero (stat succeeding) fails
initialization with error kind `Empty` — never `Corrupt` — before the file
is opened or any header is read (the result mentions no oracle but the
stat); a failed stat propagates the shared threaded I/O error instead. -/
theorem c7_zero_size_empty (p : Pager) (env : Env) :
    (env.stat = some 0 →
      Pager.doInitialize p env =
        (Pager.markAsError { p with fileSize := 0 } ErrorCode.Empty, false) ∧
      (Pager.doInitialize p env).1.lastError =
        some { code := ErrorCode.Empty, page := none } ∧
      (Pager.doInitialize p env).1.opened = p.opened) ∧
    (env.stat = none →
      Pager.doInitialize p env =
        (Pager.assignThreadedError { p with fileSize := 0 } env, false) ∧
      (Pager.doInitialize p env).1.lastError = some env.threadError) := by
  constructor
  · intro h
    refine ⟨?_, ?_, ?_⟩ <;>
      simp [Pager.doInitialize, h, Pager.markAsError]
  · intro h
    refine ⟨?_, ?_⟩ <;>
      simp [Pager.doInitialize, h, Pager.assignThreadedError]

/-- Witness for C7 at a concrete zero-size stat and a concrete failed stat. -/
theorem c7_zero_size_empty_witness :
    (Pager.doInitialize Pager.new envStatZero).1.lastError =
      some { code := ErrorCode.Empty, page := none } ∧
    (Pager.doInitialize Pager.new { sampleEnv with stat := none }).1.lastError =
      some ioError := by
  constructor
  · exact ((c7_zero_size_empty Pager.new envStatZero).1 rfl).2.1
  · exact ((c7_zero_size_empty Pager.new { sampleEnv with stat := none }).2 rfl).2

/-- C8: when at least one geometry value must be derived from the header and
the first 16 bytes of the file differ from the SQLite-format magic
signature, initialization fails with error kind `NotADatabase`. -/
theorem c8_not_a_database (p : Pager) (env : Env) (n : Nat)
    (hsent : p.pageSize = -1 ∨ p.reservedBytes = -1)
    (hstat : env.stat = some n) (hn : n ≠ 0) (hopen : env.openOk = true)
    (hlen : (env.map 0 100).length = 100)
    (hmagic : (env.map 0 100).take 16 ≠ sqliteMagic) :
    (Pager.doInitialize p env).2 = false ∧
    (Pager.doInitialize p env).1.lastError =
      some { code := ErrorCode.NotADatabase, page := none } := by
  have hne : (env.map 0 100).isEmpty = false :=
    isEmpty_false_of_length (by omega)
  constructor <;>
    simp [Pager.doInitialize, Pager.acquireData, Pager.checkSizedData,
      hstat, hn, hopen, eq_true hsent, hlen, hne, hmagic, Pager.markAsError]

/-- Witness for C8: a file whose first 16 bytes are all zero. -/
theorem c8_not_a_database_witness :
    (Pager.doInitialize Pager.new
        { sampleEnv with map := fun _ size => List.replicate size 0 }).1.lastError =
      some { code := ErrorCode.NotADatabase, page := none } :=
  (c8_not_a_database Pager.new
    { sampleEnv with map := fun _ size => List.replicate size 0 } 1024
    (Or.inl rfl) rfl (by decide) rfl (by decide) (by decide)).2

lemma checkSizedData_full (p : Pager) (env : Env) (data : List Nat)
    (offset : Int) (size : Nat) (h : data.length = size) :
    p.checkSizedData env data offset size = (p, data) := by
  simp [Pager.checkSizedData, h]

lemma intCast32_small {z : Int} (h1 : -2 ^ 31 ≤ z) (h2 : z < 2 ^ 31) :
    intCast32 z = z := by
  unfold intCast32
  rw [Int.emod_eq_of_lt (by omega) (by omega)]
  omega

lemma checkSizedData_short (p : Pager) (env : Env) (data : List Nat)
    (offset : Int) (size : Nat) (h1 : 0 < data.length) (h2 : data.length < size) :
    p.checkSizedData env data offset size =
      (p.markAsCorrupted (intCast32 (offset.tdiv p.pageSize + 1)), []) := by
  have h : data.length ≠ size := by omega
  simp [Pager.checkSizedData, h, h1]

lemma checkSizedData_zero (p : Pager) (env : Env) (data : List Nat)
    (offset : Int) (size : Nat) (h1 : data.length = 0) (h2 : 0 < size) :
    p.checkSizedData env data offset size = (p.assignThreadedError env, []) := by
  have h : data.length ≠ size := by omega
  have h0 : ¬data.length > 0 := by omega
  simp [Pager.checkSizedData, h, h0]

lemma checkSizedData_snd (p : Pager) (env : Env) (data : List Nat)
    (offset : Int) (size : Nat) :
    (p.checkSizedData env data offset size).2.length = size ∨
    (p.checkSizedData env data offset size).2 = [] := by
  by_cases h : data.length = size
  · left
    simp [Pager.checkSizedData, h]
  · right
    simp only [Pager.checkSizedData, ne_eq, h, not_false_iff, if_true]
    split <;> rfl

/-- C3: a page number beyond the base-file page count (`m_numberOfPages`,
the count known before WAL shadowing) that the overlay does not shadow
yields an empty result and a `Corrupt` error tagged with that page number;
the base-file mapping oracle is never consulted. -/
theorem c3_out_of_range_page (p : Pager) (env : Env) (number offset : Int)
    (size : Nat)
    (hwal : p.wal.containsPage number = false)
    (hgt : number > p.numberOfPages) :
    (p.acquirePageData env number offset size).2 = [] ∧
    (p.acquirePageData env number offset size).1.lastError =
      some { code := ErrorCode.Corrupt, page := some number } ∧
    ∀ g, p.acquirePageData { env with mapPage := g } number offset size =
      p.acquirePageData env number offset size := by
  refine ⟨?_, ?_, ?_⟩ <;>
    simp [Pager.acquirePageData, hwal, hgt, Pager.markAsCorrupted]

/-- Witness for C3: page 9 of a 2-page base file with no WAL shadow. -/
theorem c3_out_of_range_page_witness :
    (Pager.acquirePageData
        { Pager.new with numberOfPages := 2, state := PagerState.Initialized }
        sampleEnv 9 0 512).1.lastError =
      some { code := ErrorCode.Corrupt, page := some 9 } :=
  (c3_out_of_range_page
    { Pager.new with numberOfPages := 2, state := PagerState.Initialized }
    sampleEnv 9 0 512 (by decide) (by decide)).2.1

/-- C2: with the Pager initialized, `number > 0` and
`offset + size ≤ pageSize`, a page the overlay reports as contained is read
from the overlay — the result is the overlay data and is unchanged under
any replacement of the base-file page-mapping oracle. -/
theorem c2_wal_shadowing (p : Pager) (env : Env) (k offset : Int) (size : Nat)
    (hinit : p.state = PagerState.Initialized) (hk : 0 < k)
    (hrange : offset + (size : Int) ≤ p.pageSize)
    (hwal : p.wal.containsPage k = true)
    (hfull : (p.wal.pageData k offset size).length = size) :
    (p.acquirePageData env k offset size).2 = p.wal.pageData k offset size ∧
    ∀ g, p.acquirePageData { env with mapPage := g } k offset size =
      p.acquirePageData env k offset size := by
  constructor
  · simp [Pager.acquirePageData, hwal, checkSizedData_full p env _ offset size hfull]
  · intro g
    simp [Pager.acquirePageData, hwal, Pager.checkSizedData,
      Pager.assignThreadedError]

set_option maxRecDepth 8000 in
/-- Witness for C2: page 3 is shadowed by `sampleWal` even though the base
file maps it too; the overlay bytes (2s), not the base bytes (1s), come
back. -/
theorem c2_wal_shadowing_witness :
    (Pager.acquirePageData pagerWithWal sampleEnv 3 0 512).2 =
      List.replicate 512 2 := by
  have h := (c2_wal_shadowing pagerWithWal sampleEnv 3 0 512 rfl
    (by decide) (by decide) (by decide) (by decide)).1
  exact h.trans rfl

/-- C4: every page or offset read returns data of exactly the requested
length or an empty result; a base-file mapped range with
`0 < length < size` records `Corrupt` tagged with the page number the code
computes, `(int) (offset / pageSize + 1)` — which equals the claim's plain
`offset / pageSize + 1` whenever that value fits in a 32-bit int, in
particular at every offset admitted by the read preconditions — and
returns empty; a mapped range of length 0 records the propagated shared
threaded (system I/O) error and returns empty; for both `acquirePageData`
and `acquireData`. -/
theorem c4_no_partial_data (p : Pager) (env : Env) :
    (∀ number offset size,
      (p.acquirePageData env number offset size).2.length = size ∨
      (p.acquirePageData env number offset size).2 = []) ∧
    (∀ offset size,
      (p.acquireData env offset size).2.length = size ∨
      (p.acquireData env offset size).2 = []) ∧
    (∀ number offset size,
      p.wal.containsPage number = false → ¬number > p.numberOfPages →
      0 < (env.mapPage number offset size).length →
      (env.mapPage number offset size).length < size →
      p.acquirePageData env number offset size =
        (p.markAsCorrupted (intCast32 (offset.tdiv p.pageSize + 1)), [])) ∧
    (∀ number offset size,
      p.wal.containsPage number = false → ¬number > p.numberOfPages →
      (env.mapPage number offset size).length = 0 → 0 < size →
      p.acquirePageData env number offset size =
        (p.assignThreadedError env, [])) ∧
    (∀ offset size,
      0 < (env.map offset size).length → (env.map offset size).length < size →
      p.acquireData env offset size =
        (p.markAsCorrupted (intCast32 (offset.tdiv p.pageSize + 1)), [])) ∧
    (∀ offset size,
      (env.map offset size).length = 0 → 0 < size →
      p.acquireData env offset size = (p.assignThreadedError env, [])) ∧
    (∀ offset : Int, -2 ^ 31 ≤ offset.tdiv p.pageSize + 1 →
      offset.tdiv p.pageSize + 1 < 2 ^ 31 →
      intCast32 (offset.tdiv p.pageSize + 1) = offset.tdiv p.pageSize + 1) := by
  refine ⟨?_, ?_, ?_, ?_, ?_, ?_, ?_⟩
  · intro number offset size
    by_cases hw : p.wal.containsPage number = true
    · simpa [Pager.acquirePageData, hw] using
        checkSizedData_snd p env (p.wal.pageData number offset size) offset size
    · by_cases hn : number > p.numberOfPages
      · right
        simp [Pager.acquirePageData, hw, hn]
      · simpa [Pager.acquirePageData, hw, hn] using
          checkSizedData_snd p env (env.mapPage number offset size) offset size
  · intro offset size
    simpa [Pager.acquireData] using
      checkSizedData_snd p env (env.map offset size) offset size
  · intro number offset size hw hn h1 h2
    simp [Pager.acquirePageData, hw, hn,
      checkSizedData_short p env _ offset size h1 h2]
  · intro number offset size hw hn h1 h2
    simp [Pager.acquirePageData, hw, hn,
      checkSizedData_zero p env _ offset size h1 h2]
  · intro offset size h1 h2
    simp [Pager.acquireData, checkSizedData_short p env _ offset size h1 h2]
  · intro offset size h1 h2
    simp [Pager.acquireData, checkSizedData_zero p env _ offset size h1 h2]
  · intro offset h1 h2
    exact intCast32_small h1 h2

/-- Witness for C4: an environment whose base mapping returns 3 bytes
(short, tag `(int) (0 / 512 + 1) = 1`) and whose raw mapping returns
nothing (I/O failure). -/
theorem c4_no_partial_data_witness :
    Pager.acquirePageData pagerTwoPages
        { sampleEnv with mapPage := fun _ _ _ => [7, 7, 7] } 1 0 512 =
      (Pager.markAsCorrupted pagerTwoPages 1, []) ∧
    Pager.acquireData pagerTwoPages
        { sampleEnv with map := fun _ _ => [] } 0 100 =
      (Pager.assignThreadedError pagerTwoPages
        { sampleEnv with map := fun _ _ => [] }, []) := by
  have htag : intCast32 (Int.tdiv 0 pagerTwoPages.pageSize + 1) = 1 := by
    decide
  constructor
  · have h := (c4_no_partial_data pagerTwoPages
      { sampleEnv with mapPage := fun _ _ _ => [7, 7, 7] }).2.2.1
      1 0 512 (by decide) (by decide) (by decide) (by decide)
    rw [htag] at h
    simpa using h
  · have h := (c4_no_partial_data pagerTwoPages
      { sampleEnv with map := fun _ _ => [] }).2.2.2.2.2.1
      0 100 (by decide) (by decide)
    simpa using h

/-- C9 counterexample: after a failed initialization the Pager is in state
`Failed` (not `Uninitialized`), yet `setPageSize` passes its
`WCTInnerAssert(!isInitialized())` check — the claim that every call outside
`Uninitialized` violates the precondition is false. -/
theorem c9_counterexample :
    (Pager.runInit Pager.new envOpenFail).state ≠ PagerState.Uninitialized ∧
    ((Pager.runInit Pager.new envOpenFail).setPageSize 4096).isSome = true := by
  decide

/-- C9 amended: `setPageSize` and `setReservedBytes` violate their
precondition exactly when the Pager is in state `Initialized`; in
`Uninitialized`, `Initializing` and `Failed` the assertion
`!isInitialized()` passes. -/
theorem c9_amended_contract (p : Pager) (n m : Int) :
    ((p.setPageSize n).isNone ↔ p.state = PagerState.Initialized) ∧
    ((p.setReservedBytes m).isNone ↔ p.state = PagerState.Initialized) := by
  by_cases h : p.state = PagerState.Initialized <;>
    simp [Pager.setPageSize, Pager.setReservedBytes, Pager.isInitialized, h]

/-- C6: when WAL initialization fails, the failure propagates as the
Pager's own failure if `walImportance` is true or the WAL's recorded error
is not of kind `Corrupt`; otherwise the WAL is disposed, initialization
still succeeds, and `getNumberOfWalFrames()` is 0 afterward. Stated on the
geometry-override path so that the run reaches the WAL step. -/
theorem c6_wal_importance_policy (p : Pager) (env : Env) (n : Nat)
    (e : PagerError) (w : Wal)
    (hstat : env.stat = some n) (hn : n ≠ 0) (hopen : env.openOk = true)
    (hps : p.pageSize ≠ -1) (hrb : p.reservedBytes ≠ -1)
    (hland : Int.land (p.pageSize - 1) p.pageSize = 0)
    (h512 : 512 ≤ p.pageSize) (h65536 : p.pageSize ≤ 65536)
    (hrb0 : 0 ≤ p.reservedBytes) (hrb255 : p.reservedBytes ≤ 255)
    (hwal : env.walResult = Except.error (e, w)) :
    ((p.walImportance = true ∨ e.isCorruption = false) →
      (Pager.doInitialize p env).2 = false ∧
      (Pager.doInitialize p env).1.lastError = some e) ∧
    (p.walImportance = false → e.isCorruption = true →
      (Pager.doInitialize p env).2 = true ∧
      (Pager.doInitialize p env).1.getNumberOfWalFrames = 0) := by
  have hnothdr : ¬(p.pageSize = -1 ∨ p.reservedBytes = -1) :=
    not_or.mpr ⟨hps, hrb⟩
  have hc1 : ¬(Int.land (p.pageSize - 1) p.pageSize ≠ 0 ∨ p.pageSize < 512 ∨
      p.pageSize > 65536) := by
    push_neg
    exact ⟨hland, by omega, by omega⟩
  have hc2 : ¬(p.reservedBytes < 0 ∨ p.reservedBytes > 255) := by omega
  constructor
  · intro hor
    rcases hor with h | h <;>
      constructor <;>
        simp [Pager.doInitialize, hstat, hn, hopen, hnothdr, hc1, hc2, hwal, h]
  · intro h1 h2
    constructor <;>
      simp [Pager.doInitialize, hstat, hn, hopen, hnothdr, hc1, hc2, hwal,
        h1, h2, Pager.disposeWal, Wal.dispose, Pager.getNumberOfWalFrames]

/-- Witness for C6: the same corrupt-WAL environment fails initialization
when `walImportance` is true and succeeds — with zero WAL frames — when it
is false. -/
theorem c6_wal_importance_policy_witness :
    (Pager.doInitialize pagerOverride walCorruptEnv).2 = false ∧
    (Pager.doInitialize { pagerOverride with walImportance := false }
      walCorruptEnv).2 = true ∧
    (Pager.doInitialize { pagerOverride with walImportance := false }
      walCorruptEnv).1.getNumberOfWalFrames = 0 := by
  refine ⟨?_, ?_, ?_⟩
  · exact ((c6_wal_importance_policy pagerOverride walCorruptEnv 1024
      { code := ErrorCode.Corrupt, page := some 2 } sampleWal rfl (by decide)
      rfl (by decide) (by decide) (by decide) (by decide) (by decide)
      (by decide) (by decide) rfl).1 (Or.inl rfl)).1
  · exact ((c6_wal_importance_policy
      { pagerOverride with walImportance := false } walCorruptEnv 1024
      { code := ErrorCode.Corrupt, page := some 2 } sampleWal rfl (by decide)
      rfl (by decide) (by decide) (by decide) (by decide) (by decide)
      (by decide) (by decide) rfl).2 rfl rfl).1
  · exact ((c6_wal_importance_policy
      { pagerOverride with walImportance := false } walCorruptEnv 1024
      { code := ErrorCode.Corrupt, page := some 2 } sampleWal rfl (by decide)
      rfl (by decide) (by decide) (by decide) (by decide) (by decide)
      (by decide) (by decide) rfl).2 rfl rfl).2

/-- C10: when both geometry values are overridden before initialization,
the header region is never read (the outcome is invariant under any change
of the raw-mapping oracle), the only errors initialization can record are
the Pager's prior error, `Empty`, the shared threaded error, `Corrupt`
tagged page 1, or the WAL's own error — never a `NotADatabase` from the
magic check — and with a healthy stat, open and WAL it succeeds whatever
the file's first 16 bytes are. -/
theorem c10_override_skips_header (p : Pager) (env : Env)
    (hps : p.pageSize ≠ -1) (hrb : p.reservedBytes ≠ -1) :
    (∀ g h, Pager.doInitialize p { env with map := g } =
      Pager.doInitialize p { env with map := h }) ∧
    ((Pager.doInitialize p env).1.lastError = p.lastError ∨
      (Pager.doInitialize p env).1.lastError =
        some { code := ErrorCode.Empty, page := none } ∨
      (Pager.doInitialize p env).1.lastError = some env.threadError ∨
      (Pager.doInitialize p env).1.lastError =
        some { code := ErrorCode.Corrupt, page := some 1 } ∨
      ∃ e wpart, env.walResult = Except.error (e, wpart) ∧
        (Pager.doInitialize p env).1.lastError = some e) ∧
    (∀ n w, env.stat = some n → n ≠ 0 → env.openOk = true →
      env.walResult = Except.ok w →
      Int.land (p.pageSize - 1) p.pageSize = 0 → 512 ≤ p.pageSize →
      p.pageSize ≤ 65536 → 0 ≤ p.reservedBytes → p.reservedBytes ≤ 255 →
      (Pager.doInitialize p env).2 = true) := by
  have hnothdr : ¬(p.pageSize = -1 ∨ p.reservedBytes = -1) :=
    not_or.mpr ⟨hps, hrb⟩
  refine ⟨?_, ?_, ?_⟩
  · intro g h
    simp [Pager.doInitialize, hnothdr, Pager.assignThreadedError,
      Pager.markAsError, Pager.markAsCorrupted]
  · rcases hstat : env.stat with _ | n
    · right; right; left
      simp [Pager.doInitialize, hstat, Pager.assignThreadedError]
    · by_cases hn : n = 0
      · right; left
        simp [Pager.doInitialize, hstat, hn, Pager.markAsError]
      · by_cases hopen : env.openOk = true
        · by_cases hc1 : Int.land (p.pageSize - 1) p.pageSize ≠ 0 ∨
            p.pageSize < 512 ∨ p.pageSize > 65536
          · right; right; right; left
            simp [Pager.doInitialize, hstat, hn, hopen, hnothdr, hc1,
              Pager.markAsCorrupted]
          · by_cases hc2 : p.reservedBytes < 0 ∨ p.reservedBytes > 255
            · right; right; right; left
              simp [Pager.doInitialize, hstat, hn, hopen, hnothdr, hc1, hc2,
                Pager.markAsCorrupted]
            · rcases hwal : env.walResult with ⟨e, wpart⟩ | w
              · right; right; right; right
                refine ⟨e, wpart, rfl, ?_⟩
                by_cases himp : p.walImportance = true ∨ e.isCorruption = false
                · rcases himp with h | h <;>
                    simp [Pager.doInitialize, hstat, hn, hopen, hnothdr, hc1,
                      hc2, hwal, h]
                · have h1 : p.walImportance = false := by
                    rcases Bool.eq_false_or_eq_true p.walImportance with hh | hh
                    · exact absurd (Or.inl hh) himp
                    · exact hh
                  have h2 : e.isCorruption = true := by
                    rcases Bool.eq_false_or_eq_true e.isCorruption with hh | hh
                    · exact hh
                    · exact absurd (Or.inr hh) himp
                  simp [Pager.doInitialize, hstat, hn, hopen, hnothdr, hc1,
                    hc2, hwal, h1, h2, Pager.disposeWal]
              · left
                simp [Pager.doInitialize, hstat, hn, hopen, hnothdr, hc1,
                  hc2, hwal]
        · right; right; left
          have hopen2 : env.openOk = false := by
            revert hopen; cases env.openOk <;> simp
          simp [Pager.doInitialize, hstat, hn, hopen2,
            Pager.assignThreadedError]
  · intro n w hstat hn hopen hwal hland h512 h65536 hrb0 hrb255
    have hc1 : ¬(Int.land (p.pageSize - 1) p.pageSize ≠ 0 ∨ p.pageSize < 512 ∨
        p.pageSize > 65536) := by
      push_neg
      exact ⟨hland, by omega, by omega⟩
    have hc2 : ¬(p.reservedBytes < 0 ∨ p.reservedBytes > 255) := by omega
    simp [Pager.doInitialize, hstat, hn, hopen, hnothdr, hc1, hc2, hwal]

/-- Witness for C10: with both overrides set, initialization over a file
with a wrong magic signature still succeeds. -/
theorem c10_override_skips_header_witness :
    (Pager.doInitialize pagerOverride wrongMagicEnv).2 = true :=
  (c10_override_skips_header pagerOverride wrongMagicEnv (by decide)
    (by decide)).2.2 1024 sampleWal rfl (by decide) rfl rfl (by decide)
    (by decide) (by decide) (by decide) (by decide)

lemma testBit_true_of_between {k m : Nat} (h1 : 2 ^ k ≤ m)
    (h2 : m < 2 ^ (k + 1)) : m.testBit k = true := by
  have hdiv : m / 2 ^ k = 1 := by
    apply Nat.div_eq_of_lt_le
    · simpa using h1
    · have : 2 ^ (k + 1) = 2 * 2 ^ k := by ring
      omega
  rw [Nat.testBit_to_div_mod, hdiv]
  decide

lemma pow2_of_land_pred_zero {n : Nat} (hn : n ≠ 0)
    (h : (n - 1) &&& n = 0) : ∃ k, n = 2 ^ k := by
  refine ⟨n.log2, ?_⟩
  have h1 : 2 ^ n.log2 ≤ n := Nat.log2_self_le hn
  have h2 : n < 2 ^ (n.log2 + 1) := Nat.lt_log2_self
  by_contra hne
  have hgt : 2 ^ n.log2 < n := lt_of_le_of_ne h1 fun hh => hne hh.symm
  have hb2 : n.testBit n.log2 = true := testBit_true_of_between h1 h2
  have hb1 : (n - 1).testBit n.log2 = true :=
    testBit_true_of_between (by omega) (by omega)
  have hz : ((n - 1) &&& n).testBit n.log2 = true := by
    rw [Nat.testBit_land, hb1, hb2]
    rfl
  rw [h, Nat.zero_testBit] at hz
  exact Bool.false_ne_true hz

lemma land_pred_pow2_nat (k : Nat) : (2 ^ k - 1) &&& 2 ^ k = 0 := by
  apply Nat.eq_of_testBit_eq
  intro i
  rw [Nat.testBit_land, Nat.testBit_two_pow_sub_one, Nat.testBit_two_pow,
    Nat.zero_testBit]
  simp only [Bool.and_eq_false_iff, decide_eq_false_iff_not]
  omega

/-- The code's power-of-two test `((pageSize - 1) & pageSize) == 0` agrees
with the spec's notion of a power of two for any candidate page size that
is at least 512. -/
lemma pageSize_land_iff (ps : Int) (h512 : 512 ≤ ps) :
    Int.land (ps - 1) ps = 0 ↔ ∃ k : Nat, ps = 2 ^ k := by
  obtain ⟨m, rfl⟩ : ∃ m : Nat, ps = (m : Int) :=
    ⟨ps.toNat, (Int.toNat_of_nonneg (by omega)).symm⟩
  have hm : 1 ≤ m := by omega
  have hcast : (m : Int) - 1 = ((m - 1 : Nat) : Int) := by
    rw [Nat.cast_sub hm]
    norm_num
  rw [hcast]
  have hland : Int.land ((m - 1 : Nat) : Int) (m : Int) =
      (((m - 1) &&& m : Nat) : Int) := rfl
  rw [hland]
  constructor
  · intro h
    have hnat : (m - 1) &&& m = 0 := by exact_mod_cast h
    obtain ⟨k, hk⟩ := pow2_of_land_pred_zero (show m ≠ 0 by omega) hnat
    exact ⟨k, by exact_mod_cast hk⟩
  · rintro ⟨k, hk⟩
    have : m = 2 ^ k := by exact_mod_cast hk
    subst this
    exact_mod_cast congrArg (Nat.cast : Nat → Int) (land_pred_pow2_nat k)

/-- When geometry must be derived from the header and the header is
well-formed, `doInitialize` behaves exactly like a run on the same Pager
with the parsed values installed as overrides. -/
lemma doInitialize_header_path (p : Pager) (env : Env) (n : Nat)
    (hstat : env.stat = some n) (hn : n ≠ 0) (hopen : env.openOk = true)
    (hps0 : p.pageSize = -1) (hrb0 : p.reservedBytes = -1)
    (hlen : (env.map 0 100).length = 100)
    (hmagic : (env.map 0 100).take 16 = sqliteMagic) :
    Pager.doInitialize p env =
      Pager.doInitialize
        { p with
          pageSize := headerPageSize (env.map 0 100)
          reservedBytes := headerReservedBytes (env.map 0 100) } env := by
  have hne : (env.map 0 100).isEmpty = false :=
    isEmpty_false_of_length (by omega)
  have hhp : headerPageSize (env.map 0 100) ≠ -1 := by
    have : (0 : Int) ≤ headerPageSize (env.map 0 100) := by
      unfold headerPageSize
      positivity
    omega
  have hhr : headerReservedBytes (env.map 0 100) ≠ -1 := by
    have : (0 : Int) ≤ headerReservedBytes (env.map 0 100) := by
      unfold headerReservedBytes
      positivity
    omega
  have hnothdr : ¬(headerPageSize (env.map 0 100) = -1 ∨
      headerReservedBytes (env.map 0 100) = -1) := not_or.mpr ⟨hhp, hhr⟩
  simp [Pager.doInitialize, hstat, hn, hopen, hps0, hrb0, Pager.acquireData,
    Pager.checkSizedData, hlen, hne, hmagic, hnothdr]

/-- Geometry validation on the override-shaped path: the run fails with
`Corrupt` tagged page 1 when the code's validity test rejects the values,
and succeeds with exactly those values when it accepts them and the WAL
initializes. -/
lemma doInitialize_geometry_cases (p : Pager) (env : Env) (n : Nat)
    (hstat : env.stat = some n) (hn : n ≠ 0) (hopen : env.openOk = true)
    (hps : p.pageSize ≠ -1) (hrb : p.reservedBytes ≠ -1) :
    ((Int.land (p.pageSize - 1) p.pageSize ≠ 0 ∨ p.pageSize < 512 ∨
        p.pageSize > 65536 ∨ p.reservedBytes < 0 ∨ p.reservedBytes > 255) →
      (Pager.doInitialize p env).2 = false ∧
      (Pager.doInitialize p env).1.lastError =
        some { code := ErrorCode.Corrupt, page := some 1 }) ∧
    (∀ w, env.walResult = Except.ok w →
      Int.land (p.pageSize - 1) p.pageSize = 0 → 512 ≤ p.pageSize →
      p.pageSize ≤ 65536 → 0 ≤ p.reservedBytes → p.reservedBytes ≤ 255 →
      (Pager.doInitialize p env).2 = true ∧
      (Pager.doInitialize p env).1.pageSize = p.pageSize ∧
      (Pager.doInitialize p env).1.reservedBytes = p.reservedBytes) := by
  have hnothdr : ¬(p.pageSize = -1 ∨ p.reservedBytes = -1) :=
    not_or.mpr ⟨hps, hrb⟩
  constructor
  · intro hbad
    by_cases hfirst : Int.land (p.pageSize - 1) p.pageSize ≠ 0 ∨
        p.pageSize < 512 ∨ p.pageSize > 65536
    · constructor <;>
        simp [Pager.doInitialize, hstat, hn, hopen, hnothdr, hfirst,
          Pager.markAsCorrupted]
    · have hsecond : p.reservedBytes < 0 ∨ p.reservedBytes > 255 := by
        rcases hbad with h | h | h | h | h
        · exact absurd (Or.inl h) hfirst
        · exact absurd (Or.inr (Or.inl h)) hfirst
        · exact absurd (Or.inr (Or.inr h)) hfirst
        · exact Or.inl h
        · exact Or.inr h
      constructor <;>
        simp [Pager.doInitialize, hstat, hn, hopen, hnothdr, hfirst, hsecond,
          Pager.markAsCorrupted]
  · intro w hwal hland h512 h65536 hrb0 hrb255
    have hc1 : ¬(Int.land (p.pageSize - 1) p.pageSize ≠ 0 ∨ p.pageSize < 512 ∨
        p.pageSize > 65536) := by
      push_neg
      exact ⟨hland, by omega, by omega⟩
    have hc2 : ¬(p.reservedBytes < 0 ∨ p.reservedBytes > 255) := by omega
    refine ⟨?_, ?_, ?_⟩ <;>
      simp [Pager.doInitialize, hstat, hn, hopen, hnothdr, hc1, hc2, hwal]

/-- C5: with geometry determined (override or well-formed header parse),
initialization fails with `Corrupt` tagged page 1 exactly when the page
size is not a power of two, is below 512, or above 65536, or the reserved
bytes lie outside [0, 255]; and for every page size in the eight-value set
and reserved bytes in [0, 255], with a healthy WAL, it succeeds with
exactly those values. -/
theorem c5_geometry_validation (p : Pager) (env : Env) (n : Nat) (ps rb : Int)
    (hstat : env.stat = some n) (hn : n ≠ 0) (hopen : env.openOk = true)
    (hdet : (p.pageSize = ps ∧ p.reservedBytes = rb ∧ ps ≠ -1 ∧ rb ≠ -1) ∨
      (p.pageSize = -1 ∧ p.reservedBytes = -1 ∧
        (env.map 0 100).length = 100 ∧ (env.map 0 100).take 16 = sqliteMagic ∧
        headerPageSize (env.map 0 100) = ps ∧
        headerReservedBytes (env.map 0 100) = rb)) :
    (¬((∃ k : Nat, ps = 2 ^ k) ∧ 512 ≤ ps ∧ ps ≤ 65536 ∧ 0 ≤ rb ∧ rb ≤ 255) →
      (Pager.doInitialize p env).2 = false ∧
      (Pager.doInitialize p env).1.lastError =
        some { code := ErrorCode.Corrupt, page := some 1 }) ∧
    (∀ w, env.walResult = Except.ok w →
      (ps = 512 ∨ ps = 1024 ∨ ps = 2048 ∨ ps = 4096 ∨ ps = 8192 ∨
        ps = 16384 ∨ ps = 32768 ∨ ps = 65536) →
      0 ≤ rb → rb ≤ 255 →
      (Pager.doInitialize p env).2 = true ∧
      (Pager.doInitialize p env).1.pageSize = ps ∧
      (Pager.doInitialize p env).1.reservedBytes = rb) := by
  have main : ∀ q : Pager, q.pageSize = ps → q.reservedBytes = rb →
      ps ≠ -1 → rb ≠ -1 →
      (¬((∃ k : Nat, ps = 2 ^ k) ∧ 512 ≤ ps ∧ ps ≤ 65536 ∧ 0 ≤ rb ∧
          rb ≤ 255) →
        (Pager.doInitialize q env).2 = false ∧
        (Pager.doInitialize q env).1.lastError =
          some { code := ErrorCode.Corrupt, page := some 1 }) ∧
      (∀ w, env.walResult = Except.ok w →
        (ps = 512 ∨ ps = 1024 ∨ ps = 2048 ∨ ps = 4096 ∨ ps = 8192 ∨
          ps = 16384 ∨ ps = 32768 ∨ ps = 65536) →
        0 ≤ rb → rb ≤ 255 →
        (Pager.doInitialize q env).2 = true ∧
        (Pager.doInitialize q env).1.pageSize = ps ∧
        (Pager.doInitialize q env).1.reservedBytes = rb) := by
    intro q hqps hqrb hps1 hrb1
    have hgc := doInitialize_geometry_cases q env n hstat hn hopen
      (by rw [hqps]; exact hps1) (by rw [hqrb]; exact hrb1)
    constructor
    · intro hinv
      apply hgc.1
      rw [hqps, hqrb]
      by_cases hl : Int.land (ps - 1) ps = 0
      · by_cases h5 : 512 ≤ ps
        · by_cases h6 : ps ≤ 65536
          · by_cases h7 : 0 ≤ rb
            · by_cases h8 : rb ≤ 255
              · exact absurd ⟨(pageSize_land_iff ps h5).mp hl, h5, h6, h7, h8⟩
                  hinv
              · right; right; right; right; omega
            · right; right; right; left; omega
          · right; right; left; omega
        · right; left; omega
      · exact Or.inl hl
    · intro w hwal hmem hr0 hr255
      have h5 : 512 ≤ ps := by rcases hmem with h | h | h | h | h | h | h | h <;> omega
      have h6 : ps ≤ 65536 := by rcases hmem with h | h | h | h | h | h | h | h <;> omega
      have hpow : ∃ k : Nat, ps = 2 ^ k := by
        rcases hmem with h | h | h | h | h | h | h | h
        · exact ⟨9, by rw [h]; norm_num⟩
        · exact ⟨10, by rw [h]; norm_num⟩
        · exact ⟨11, by rw [h]; norm_num⟩
        · exact ⟨12, by rw [h]; norm_num⟩
        · exact ⟨13, by rw [h]; norm_num⟩
        · exact ⟨14, by rw [h]; norm_num⟩
        · exact ⟨15, by rw [h]; norm_num⟩
        · exact ⟨16, by rw [h]; norm_num⟩
      have hl : Int.land (ps - 1) ps = 0 := (pageSize_land_iff ps h5).mpr hpow
      have hres := hgc.2 w hwal (by rw [hqps]; exact hl) (by omega) (by omega)
        (by omega) (by omega)
      rw [hqps, hqrb] at hres
      exact hres
  rcases hdet with ⟨h1, h2, h3, h4⟩ | ⟨h1, h2, hlen, hmagic, hhp, hhr⟩
  · exact main p h1 h2 h3 h4
  · rw [doInitialize_header_path p env n hstat hn hopen h1 h2 hlen hmagic]
    apply main
    · simpa using hhp
    · simpa using hhr
    · rw [← hhp]
      have : (0 : Int) ≤ headerPageSize (env.map 0 100) := by
        unfold headerPageSize
        positivity
      omega
    · rw [← hhr]
      have : (0 : Int) ≤ headerReservedBytes (env.map 0 100) := by
        unfold headerReservedBytes
        positivity
      omega

/-- Witness for C5: `sampleHeader` (page size 512, reserved bytes 7) parses
and initializes to exactly those values, while a header advertising page
size 1000 fails with `Corrupt` tagged page 1. -/
theorem c5_geometry_validation_witness :
    ((Pager.doInitialize Pager.new sampleEnv).2 = true ∧
      (Pager.doInitialize Pager.new sampleEnv).1.pageSize = 512 ∧
      (Pager.doInitialize Pager.new sampleEnv).1.reservedBytes = 7) ∧
    ((Pager.doInitialize Pager.new
        { sampleEnv with
          map := fun off size => if off = 0 ∧ size = 100 then
            sqliteMagic ++ [3, 232, 0, 0, 7] ++ List.replicate 79 0
          else [] }).2 = false ∧
      (Pager.doInitialize Pager.new
        { sampleEnv with
          map := fun off size => if off = 0 ∧ size = 100 then
            sqliteMagic ++ [3, 232, 0, 0, 7] ++ List.replicate 79 0
          else [] }).1.lastError =
        some { code := ErrorCode.Corrupt, page := some 1 }) := by
  constructor
  · exact (c5_geometry_validation Pager.new sampleEnv 1024 512 7 rfl
      (by decide) rfl
      (Or.inr ⟨rfl, rfl, by decide, by decide, by decide, by decide⟩)).2
      sampleWal rfl (Or.inl rfl) (by decide) (by decide)
  · exact (c5_geometry_validation Pager.new
      { sampleEnv with
        map := fun off size => if off = 0 ∧ size = 100 then
          sqliteMagic ++ [3, 232, 0, 0, 7] ++ List.replicate 79 0
        else [] } 1024 1000 7 rfl (by decide) rfl
      (Or.inr ⟨rfl, rfl, by decide, by decide, by decide, by decide⟩)).1
      (by
        rintro ⟨⟨k, hk⟩, -, -, -, -⟩
        rcases le_or_lt k 9 with h | h
        · have hle : (2 : Int) ^ k ≤ 2 ^ (9 : Nat) :=
            pow_le_pow_right₀ (by norm_num) h
          rw [← hk] at hle
          norm_num at hle
        · have hle : (2 : Int) ^ (10 : Nat) ≤ 2 ^ k :=
            pow_le_pow_right₀ (by norm_num) h
          rw [← hk] at hle
          norm_num at hle)

/-- General form of the header-path reduction: whichever of the two
geometry values is still the −1 sentinel is replaced by its parsed header
value, after which the run coincides with an override-path run. -/
lemma doInitialize_header_reduces (p : Pager) (env : Env) (n : Nat)
    (hstat : env.stat = some n) (hn : n ≠ 0) (hopen : env.openOk = true)
    (hhdr : p.pageSize = -1 ∨ p.reservedBytes = -1)
    (hlen : (env.map 0 100).length = 100)
    (hmagic : (env.map 0 100).take 16 = sqliteMagic) :
    Pager.doInitialize p env =
      Pager.doInitialize
        { p with
          pageSize := if p.pageSize = -1 then headerPageSize (env.map 0 100)
            else p.pageSize
          reservedBytes := if p.reservedBytes = -1 then
            headerReservedBytes (env.map 0 100) else p.reservedBytes } env := by
  have hne : (env.map 0 100).isEmpty = false :=
    isEmpty_false_of_length (by omega)
  have hhp0 : (0 : Int) ≤ headerPageSize (env.map 0 100) := by
    unfold headerPageSize
    positivity
  have hhr0 : (0 : Int) ≤ headerReservedBytes (env.map 0 100) := by
    unfold headerReservedBytes
    positivity
  by_cases h1 : p.pageSize = -1 <;> by_cases h2 : p.reservedBytes = -1
  · have hnothdr : ¬(headerPageSize (env.map 0 100) = -1 ∨
        headerReservedBytes (env.map 0 100) = -1) :=
      not_or.mpr ⟨by omega, by omega⟩
    simp [Pager.doInitialize, hstat, hn, hopen, h1, h2, Pager.acquireData,
      Pager.checkSizedData, hlen, hne, hmagic, hnothdr]
  · have hnothdr : ¬(headerPageSize (env.map 0 100) = -1 ∨
        p.reservedBytes = -1) := not_or.mpr ⟨by omega, h2⟩
    simp [Pager.doInitialize, hstat, hn, hopen, h1, h2, Pager.acquireData,
      Pager.checkSizedData, hlen, hne, hmagic, hnothdr]
  · have hnothdr : ¬(p.pageSize = -1 ∨
        headerReservedBytes (env.map 0 100) = -1) := not_or.mpr ⟨h1, by omega⟩
    simp [Pager.doInitialize, hstat, hn, hopen, h1, h2, Pager.acquireData,
      Pager.checkSizedData, hlen, hne, hmagic, hnothdr]
  · exact absurd hhdr (not_or.mpr ⟨h1, h2⟩)

lemma doInitialize_success_invariant_override (p : Pager) (env : Env)
    (n : Nat) (q : Pager) (hstat : env.stat = some n)
    (hps : p.pageSize ≠ -1) (hrb : p.reservedBytes ≠ -1)
    (h : Pager.doInitialize p env = (q, true)) : InitInvariant q := by
  have hnothdr : ¬(p.pageSize = -1 ∨ p.reservedBytes = -1) :=
    not_or.mpr ⟨hps, hrb⟩
  by_cases hn : n = 0
  · subst hn
    simp [Pager.doInitialize, hstat] at h
  · by_cases hopen : env.openOk = true
    · by_cases hc1 : Int.land (p.pageSize - 1) p.pageSize ≠ 0 ∨
        p.pageSize < 512 ∨ p.pageSize > 65536
      · simp [Pager.doInitialize, hstat, hn, hopen, hnothdr, hc1] at h
      · by_cases hc2 : p.reservedBytes < 0 ∨ p.reservedBytes > 255
        · simp [Pager.doInitialize, hstat, hn, hopen, hnothdr, hc1, hc2] at h
        · push_neg at hc1 hc2
          obtain ⟨hL, hA, hB⟩ := hc1
          obtain ⟨hC, hD⟩ := hc2
          have hc1 : ¬(Int.land (p.pageSize - 1) p.pageSize ≠ 0 ∨
              p.pageSize < 512 ∨ p.pageSize > 65536) := by
            push_neg
            exact ⟨hL, hA, hB⟩
          have hc2 : ¬(p.reservedBytes < 0 ∨ p.reservedBytes > 255) := by
            omega
          rcases hwal : env.walResult with ⟨e, wpart⟩ | w
          · by_cases himp : p.walImportance = true ∨ e.isCorruption = false
            · rcases himp with hh | hh <;>
                simp [Pager.doInitialize, hstat, hn, hopen, hnothdr, hc1,
                  hc2, hwal, hh] at h
            · have h1 : p.walImportance = false := by
                rcases Bool.eq_false_or_eq_true p.walImportance with hh | hh
                · exact absurd (Or.inl hh) himp
                · exact hh
              have h2 : e.isCorruption = true := by
                rcases Bool.eq_false_or_eq_true e.isCorruption with hh | hh
                · exact hh
                · exact absurd (Or.inr hh) himp
              simp [Pager.doInitialize, hstat, hn, hopen, hnothdr, hc1, hc2,
                hwal, h1, h2, Pager.disposeWal] at h
              subst h
              refine ⟨by simpa using Nat.pos_of_ne_zero hn,
                by simpa using hA, by simpa using hB, rfl⟩
          · simp [Pager.doInitialize, hstat, hn, hopen, hnothdr, hc1, hc2,
              hwal] at h
            subst h
            refine ⟨by simpa using Nat.pos_of_ne_zero hn,
              by simpa using hA, by simpa using hB, rfl⟩
    · have hopen2 : env.openOk = false := by
        revert hopen
        cases env.openOk <;> simp
      simp [Pager.doInitialize, hstat, hn, hopen2] at h

lemma doInitialize_success_invariant (p : Pager) (env : Env) (q : Pager)
    (h : Pager.doInitialize p env = (q, true)) : InitInvariant q := by
  rcases hstat : env.stat with _ | n
  · simp [Pager.doInitialize, hstat] at h
  · by_cases hhdr : p.pageSize = -1 ∨ p.reservedBytes = -1
    · by_cases hn : n = 0
      · subst hn
        simp [Pager.doInitialize, hstat] at h
      · by_cases hopen : env.openOk = true
        · by_cases hlen : (env.map 0 100).length = 100
          · by_cases hmagic : (env.map 0 100).take 16 = sqliteMagic
            · rw [doInitialize_header_reduces p env n hstat hn hopen hhdr
                hlen hmagic] at h
              have hhp0 : (0 : Int) ≤ headerPageSize (env.map 0 100) := by
                unfold headerPageSize
                positivity
              have hhr0 : (0 : Int) ≤ headerReservedBytes (env.map 0 100) := by
                unfold headerReservedBytes
                positivity
              refine doInitialize_success_invariant_override _ env n q hstat
                ?_ ?_ h
              · by_cases h1 : p.pageSize = -1 <;> simp [h1] <;> omega
              · by_cases h2 : p.reservedBytes = -1 <;> simp [h2] <;> omega
            · have hne : (env.map 0 100).isEmpty = false :=
                isEmpty_false_of_length (by omega)
              simp [Pager.doInitialize, hstat, hn, hopen, eq_true hhdr,
                Pager.acquireData, Pager.checkSizedData, hlen, hne,
                hmagic] at h
          · have hemp : ∀ p2 : Pager, (Pager.acquireData p2 env 0 100).2 = [] := by
              intro p2
              unfold Pager.acquireData Pager.checkSizedData
              rw [if_pos hlen]
              split <;> rfl
            simp [Pager.doInitialize, hstat, hn, hopen, eq_true hhdr,
              hemp] at h
        · have hopen2 : env.openOk = false := by
            revert hopen
            cases env.openOk <;> simp
          simp [Pager.doInitialize, hstat, hn, hopen2] at h
    · exact doInitialize_success_invariant_override p env n q hstat
        (not_or.mp hhdr).1 (not_or.mp hhdr).2 h

lemma toInt32_small {m : Nat} (h : m < 2 ^ 31) : toInt32 m = (m : Int) := by
  unfold toInt32
  rw [Nat.mod_eq_of_lt (by omega)]
  rw [if_pos h]

lemma ceil_div_bounds (a b : Nat) (ha : 0 < a) (hb : 0 < b) :
    a ≤ (a + b - 1) / b * b ∧ (a + b - 1) / b * b < a + b := by
  have hq := Nat.div_add_mod (a + b - 1) b
  have hm := Nat.mod_lt (a + b - 1) hb
  have hcomm : (a + b - 1) / b * b = b * ((a + b - 1) / b) := Nat.mul_comm _ _
  rw [hcomm]
  generalize hP : b * ((a + b - 1) / b) = P at hq ⊢
  generalize hR : (a + b - 1) % b = R at hq hm
  omega

lemma checkSizedData_geom (p : Pager) (env : Env) (data : List Nat)
    (offset : Int) (size : Nat) :
    (p.checkSizedData env data offset size).1.fileSize = p.fileSize ∧
    (p.checkSizedData env data offset size).1.pageSize = p.pageSize ∧
    (p.checkSizedData env data offset size).1.numberOfPages =
      p.numberOfPages := by
  unfold Pager.checkSizedData Pager.markAsCorrupted Pager.assignThreadedError
  split
  · split <;> simp
  · simp

lemma acquirePageData_geom (p : Pager) (env : Env) (number offset : Int)
    (size : Nat) :
    (p.acquirePageData env number offset size).1.fileSize = p.fileSize ∧
    (p.acquirePageData env number offset size).1.pageSize = p.pageSize ∧
    (p.acquirePageData env number offset size).1.numberOfPages =
      p.numberOfPages := by
  unfold Pager.acquirePageData
  split
  · exact checkSizedData_geom p env _ offset size
  · split
    · simp [Pager.markAsCorrupted]
    · exact checkSizedData_geom p env _ offset size

lemma acquireData_geom (p : Pager) (env : Env) (offset : Int) (size : Nat) :
    (p.acquireData env offset size).1.fileSize = p.fileSize ∧
    (p.acquireData env offset size).1.pageSize = p.pageSize ∧
    (p.acquireData env offset size).1.numberOfPages = p.numberOfPages := by
  unfold Pager.acquireData
  exact checkSizedData_geom p env _ offset size

lemma ReachableConfig.state_uninit {p : Pager} (h : ReachableConfig p) :
    p.state = PagerState.Uninitialized := by
  induction h with
  | base => rfl
  | pageSizeSet n hrc hset ih =>
      simp [Pager.setPageSize, Pager.isInitialized, ih] at hset
      subst hset
      simpa using ih
  | reservedSet n hrc hset ih =>
      simp [Pager.setReservedBytes, Pager.isInitialized, ih] at hset
      subst hset
      simpa using ih
  | walImportanceSet b hrc ih =>
      simpa [Pager.setWalImportance] using ih

lemma ReachableInit.invariant {p : Pager} (h : ReachableInit p) :
    InitInvariant p := by
  induction h with
  | run env hrc hstate =>
      rename_i p0
      have hst := hrc.state_uninit
      unfold Pager.runInit at hstate ⊢
      rw [if_pos hst] at hstate ⊢
      by_cases hb : (Pager.doInitialize
          { p0 with state := PagerState.Initializing } env).2 = true
      · have heq : Pager.doInitialize
            { p0 with state := PagerState.Initializing } env =
            ((Pager.doInitialize
              { p0 with state := PagerState.Initializing } env).1, true) := by
          rw [← hb]
        have hinv := doInitialize_success_invariant _ env _ heq
        unfold InitInvariant at hinv ⊢
        simpa using hinv
      · have hbf : (Pager.doInitialize
            { p0 with state := PagerState.Initializing } env).2 = false := by
          revert hb
          cases (Pager.doInitialize
            { p0 with state := PagerState.Initializing } env).2 <;> simp
        simp [hbf] at hstate
  | pageRead env number offset size hr ih =>
      rename_i p1
      have hg := acquirePageData_geom p1 env number offset size
      unfold InitInvariant at ih ⊢
      rw [hg.1, hg.2.1, hg.2.2]
      exact ih
  | rawRead env offset size hr ih =>
      rename_i p1
      have hg := acquireData_geom p1 env offset size
      unfold InitInvariant at ih ⊢
      rw [hg.1, hg.2.1, hg.2.2]
      exact ih
  | walDisposed hr ih =>
      unfold InitInvariant at ih ⊢
      simpa [Pager.disposeWal] using ih
  | walImportanceSet b hr ih =>
      unfold InitInvariant at ih ⊢
      simpa [Pager.setWalImportance] using ih

/-- C1: in every reachable initialized state, `getNumberOfPages()` is the
maximum of the overlay's max page number and the base-file page count, and
that count — computed at initialization — is exactly `ceil(fileSize /
pageSize)`: the least number of pages covering the recorded file size.
The overflow side conditions discharge the `size_t` sum and the `(int)`
narrowing the code performs. -/
theorem c1_get_number_of_pages (p : Pager) (h : ReachableInit p)
    (hfit : p.fileSize + p.pageSize.toNat < 2 ^ 64)
    (hsmall : (p.fileSize + p.pageSize.toNat - 1) / p.pageSize.toNat < 2 ^ 31) :
    p.getNumberOfPages = max p.wal.maxPageno
      (((p.fileSize + p.pageSize.toNat - 1) / p.pageSize.toNat : Nat) : Int) ∧
    p.fileSize ≤
      (p.fileSize + p.pageSize.toNat - 1) / p.pageSize.toNat *
        p.pageSize.toNat ∧
    (p.fileSize + p.pageSize.toNat - 1) / p.pageSize.toNat * p.pageSize.toNat
      < p.fileSize + p.pageSize.toNat := by
  obtain ⟨hfs, hA, hB, hnum⟩ := h.invariant
  have hps : 0 < p.pageSize.toNat := by omega
  refine ⟨?_, ?_, ?_⟩
  · unfold Pager.getNumberOfPages
    rw [hnum, Nat.mod_eq_of_lt (by omega), toInt32_small hsmall]
  · exact (ceil_div_bounds p.fileSize p.pageSize.toNat hfs hps).1
  · exact (ceil_div_bounds p.fileSize p.pageSize.toNat hfs hps).2

/-- Witness for C1: over `sampleEnv` the base file holds
ceil(1024 / 512) = 2 pages while the WAL reports max page number 5, and
`getNumberOfPages()` returns 5. -/
theorem c1_get_number_of_pages_witness :
    (Pager.runInit Pager.new sampleEnv).getNumberOfPages = 5 := by
  have h := c1_get_number_of_pages (Pager.runInit Pager.new sampleEnv)
    (ReachableInit.run sampleEnv ReachableConfig.base (by decide))
    (by decide) (by decide)
  rw [h.1]
  decide

end WCDBRepair
